import Mathlib

set_option autoImplicit false

namespace DockerHttp

/-!
Shallow embedding of the registry HTTP transport
(`containerregistry/client/v2_2/docker_http_.py`).

Python strings are Lean `String`; `None`-able values are `Option`;
JSON values decoded by `json.loads` are the inductive `JValue`.
A response body is its raw text together with the outcome of
`json.loads` on it.  The external HTTP transport collaborator is a
scripted sequence of responses together with a log of every call made
to it.  Exceptions are explicit: every operation returns its result or
the raised error, together with the object state at that point.
-/

/-- A decoded JSON value, as produced by `json.loads`. -/
inductive JValue where
  | str : String → JValue
  | num : Int → JValue
  | bool : Bool → JValue
  | null : JValue
  | arr : List JValue → JValue
  | obj : List (String × JValue) → JValue


/-- Python `dict.get(key)`: `None` when the key is absent or the value is
not a dict. -/
def JValue.get : JValue → String → Option JValue
  | .obj fs, k => fs.lookup k
  | _, _ => none

/-- An HTTP response body: the raw text plus the result of `json.loads`
on it (`none` when parsing raises). -/
structure Body where
  raw : String
  parsed : Option JValue


/-- `Diagnostic` wraps one decoded element of the `errors` array. -/
structure Diagnostic where
  error : JValue


/-- `Diagnostic.code`: `self._error.get('code')`. -/
def Diagnostic.code (d : Diagnostic) : Option JValue := d.error.get ("code")

/-- `Diagnostic.message`: `self._error.get('message')`. -/
def Diagnostic.message (d : Diagnostic) : Option JValue := d.error.get ("message")

/-- `Diagnostic.detail`: `self._error.get('detail')`. -/
def Diagnostic.detail (d : Diagnostic) : Option JValue := d.error.get ("detail")

/-- Python iteration over a decoded JSON value: lists yield their
elements, strings yield one-character strings, dicts yield their keys;
any other value raises `TypeError` (`none` here). -/
def pyIter : JValue → Option (List JValue)
  | .arr xs => some xs
  | .str s => some (s.toList.map (fun c => JValue.str (String.mk [c])))
  | .obj fs => some (fs.map (fun kv => JValue.str kv.1))
  | _ => none

/-- `o.get('errors', [])`: defined only when `o` is a dict (otherwise the
attribute access raises, `none` here). -/
def dictGetDefault (v : JValue) (k : String) (dflt : JValue) : Option JValue :=
  match v with
  | .obj fs => some ((fs.lookup k).getD dflt)
  | _ => none

/-- `_DiagnosticsFromContent(content)`: parse the body as JSON with an
`errors` array and wrap each element; a bare `except:` turns any failure
into a single synthetic UNKNOWN diagnostic whose message is the raw body. -/
def _DiagnosticsFromContent (content : Body) : List Diagnostic :=
  match (do
      let o ← content.parsed
      let errs ← dictGetDefault o ("errors") (JValue.arr [])
      let elems ← pyIter errs
      pure (elems.map Diagnostic.mk)) with
  | some ds => ds
  | none =>
      [⟨JValue.obj [(("code"), JValue.str ("UNKNOWN")),
                    (("message"), JValue.str content.raw)]⟩]

/-! ### Module constants -/

/-- `PULL = 'pull'`. -/
def PULL : String := "pull"

/-- `PUSH = 'push,pull'`. -/
def PUSH : String := "push,pull"

/-- `DELETE = PUSH` (delete uses the read/write ACL). -/
def DELETE : String := PUSH

/-- `CATALOG = 'catalog'`. -/
def CATALOG : String := "catalog"

/-- `ACTIONS = [PULL, PUSH, DELETE, CATALOG]`. -/
def ACTIONS : List String := [PULL, PUSH, DELETE, CATALOG]

/-- `_CHALLENGE = 'Bearer '`. -/
def _CHALLENGE : String := "Bearer "

/-- `_REALM_PFX = 'realm='`. -/
def _REALM_PFX : String := "realm="

/-- `_SERVICE_PFX = 'service='`. -/
def _SERVICE_PFX : String := "service="

/-- Modelled from the spec: `docker_name.USER_AGENT` (module not under
src/), the fixed user-agent string attached to every request. -/
def USER_AGENT : String := "containerregistry-client"

/-! ### Python string helpers, kernel-friendly (via `List Char`) -/

/-- `s.startswith(p)`. -/
def pyStartsWith (s p : String) : Bool := p.toList.isPrefixOf s.toList

/-- `s[n:]` for a nonnegative `n`. -/
def pyDrop (s : String) (n : Nat) : String := String.mk (s.toList.drop n)

/-- One-character split, list level: Python `split(c)` semantics. -/
def splitCharList (c : Char) : List Char → List (List Char)
  | [] => [[]]
  | x :: xs =>
      match splitCharList c xs with
      | [] => [[]]
      | h :: t => if x == c then [] :: h :: t else (x :: h) :: t

/-- `s.split(c)` for a one-character separator. -/
def pySplitChar (s : String) (c : Char) : List String :=
  (splitCharList c s.toList).map String.mk

/-- `s.strip(c)` for a one-character strip set: remove every leading and
trailing occurrence of `c`. -/
def pyStripChar (s : String) (c : Char) : String :=
  String.mk ((((s.toList.dropWhile (· == c)).reverse).dropWhile (· == c)).reverse)

/-- `','.join(xs)`. -/
def joinComma : List String → String
  | [] => ""
  | [x] => x
  | x :: y :: xs => x ++ "," ++ joinComma (y :: xs)

/-- Python truthiness of an optional string (`None` and `''` are falsy). -/
def pyTruthy : Option String → Bool
  | none => false
  | some s => s != ""

/-! ### HTTP collaborator model -/

/-- An httplib2-style response: a status code plus a header dict
(lowercase keys, subscript/`get` access). -/
structure HttpResponse where
  status : Nat
  headers : List (String × String)
deriving Repr, DecidableEq

/-- `resp.get(key)` / `resp[key]` header lookup. -/
def HttpResponse.get (r : HttpResponse) (k : String) : Option String :=
  r.headers.lookup k

/-- One call made to the underlying HTTP transport:
`transport.request(url, method, body=body, headers=headers)`. -/
structure CallRecord where
  url : String
  method : String
  body : Option String
  headers : List (String × String)
deriving Repr, DecidableEq

/-- The external HTTP transport collaborator, modelled as a script of
responses consumed in order, together with the log of calls made. -/
structure HttpTransport where
  responses : List (HttpResponse × Body)
  log : List CallRecord

/-- `self._transport.request(url, method, body=body, headers=headers)`:
consume the next scripted response and record the call; `none` when the
script is exhausted (a model artifact, not a code path). -/
def HttpTransport.request (t : HttpTransport) (url method : String)
    (body : Option String) (headers : List (String × String)) :
    Option ((HttpResponse × Body) × HttpTransport) :=
  match t.responses with
  | [] => none
  | r :: rest => some (r, ⟨rest, t.log ++ [⟨url, method, body, headers⟩]⟩)

/-! ### Exceptions and state -/

/-- The exceptions the transport code can raise.  `badState` is the typed
`BadStateException`; `v2Diagnostic` is `V2DiagnosticException`; the
others are untyped Python runtime errors reachable from this code. -/
inductive PyError where
  | badState : String → PyError
  | v2Diagnostic : HttpResponse → Body → PyError
  | attributeError : String → PyError
  | typeError : String → PyError
  | keyError : String → PyError
  | valueError : String → PyError
  | transportExhausted : PyError

/-- Modelled from the spec: `v2_2_creds.Bearer` (module not under src/),
a credential wrapping exactly the token value from the exchange; its
`Get()` yields the `Bearer <token>` Authorization value. -/
structure Bearer where
  token : JValue

/-- Modelled from the spec: the Authorization header value produced by a
Bearer credential. -/
def Bearer.Get (b : Bearer) : String :=
  "Bearer " ++ (match b.token with
                | .str s => s
                | _ => "")

/-- The mutable state of a `Transport` object.  `realm`, `service` and
`bearer` are `none` while the corresponding attribute is still unset
(reading it then raises `AttributeError`). -/
structure TState where
  http : HttpTransport
  registry : String
  scopeStr : String
  basicAuth : String
  action : String
  realm : Option String
  service : Option String
  bearer : Option Bearer

/-- The outcome of running a method: the returned value or the raised
error, each together with the object state at that point. -/
inductive RunResult (α : Type) where
  | ok : α → TState → RunResult α
  | err : PyError → TState → RunResult α

/-- `_CheckState(predicate, message)`: raise `BadStateException(message)`
when the predicate is falsy. -/
def _CheckState (predicate : Bool) (message : String) : Except PyError Unit :=
  if predicate then Except.ok () else Except.error (PyError.badState message)

/-- `Scheme(endpoint)`: http for localhost, https otherwise. -/
def Scheme (endpoint : String) : String :=
  if pyStartsWith endpoint ("localhost:") then "http" else "https"

/-! ### `Transport._Ping` -/

/-- The challenge-token scan of `_Ping`: for each comma token, a
`realm=` start overwrites realm, else a `service=` start overwrites
service; anything else is skipped.  No whitespace stripping occurs. -/
def scanChallengeTokens : List String → Option String → Option String →
    Option String × Option String
  | [], realm, service => (realm, service)
  | t :: ts, realm, service =>
      if pyStartsWith t _REALM_PFX then
        scanChallengeTokens ts
          (some (pyStripChar (pyDrop t (_REALM_PFX.length)) ('"'))) service
      else if pyStartsWith t _SERVICE_PFX then
        scanChallengeTokens ts realm
          (some (pyStripChar (pyDrop t (_SERVICE_PFX.length)) ('"')))
      else
        scanChallengeTokens ts realm service

/-- The headers `_Ping` sends. -/
def pingHeaders : List (String × String) :=
  [(("content-type"), ("application/json")), (("user-agent"), USER_AGENT)]

/-- `Transport._Ping`: issue `GET scheme://registry/v2/`, require a 401,
require a `Bearer `-prefixed `www-authenticate` challenge, default the
service to the registry host, scan the comma-separated tokens for
`realm=` and `service=`, and finally evaluate
`_CheckState(self._realm, ...)` — which raises `AttributeError` when no
`realm=` token ever assigned the attribute. -/
def _Ping (s : TState) : RunResult Unit :=
  match s.http.request (Scheme s.registry ++ "://" ++ s.registry ++ "/v2/")
      ("GET") none pingHeaders with
  | none => RunResult.err PyError.transportExhausted s
  | some ((resp, _content), http1) =>
      let s := { s with http := http1 }
      match _CheckState (resp.status == 401)
          ("Unexpected status: " ++ toString resp.status) with
      | Except.error e => RunResult.err e s
      | Except.ok _ =>
          match resp.get ("www-authenticate") with
          | none => RunResult.err (PyError.keyError ("www-authenticate")) s
          | some challenge =>
              match _CheckState (pyStartsWith challenge _CHALLENGE)
                  ("Unexpected \"www-authenticate\" header: " ++ challenge) with
              | Except.error e => RunResult.err e s
              | Except.ok _ =>
                  let s := { s with service := some s.registry }
                  let tokens :=
                    pySplitChar (pyDrop challenge (_CHALLENGE.length)) (',')
                  let rs := scanChallengeTokens tokens s.realm s.service
                  let s := { s with realm := rs.1, service := rs.2 }
                  match rs.1 with
                  | none => RunResult.err (PyError.attributeError ("_realm")) s
                  | some rv =>
                      match _CheckState (rv != "")
                          ("Expected a \"" ++ _REALM_PFX ++
                           "\" in \"www-authenticate\" header: " ++ challenge) with
                      | Except.error e => RunResult.err e s
                      | Except.ok _ => RunResult.ok () s

/-! ### `Transport._Refresh` -/

/-- `urllib.urlencode` over the two-entry parameter dict; percent
escaping of reserved characters is elided (the inputs exercised here
contain none). -/
def urlencodeScopeService (scope service : String) : String :=
  "scope=" ++ scope ++ "&service=" ++ service

/-- Python `'token' in wrapper_object`: key membership for dicts,
element membership for lists, substring test for strings; `TypeError`
(`none`) otherwise. -/
def pyContains (v : JValue) (k : String) : Option Bool :=
  match v with
  | .obj fs => some (fs.any (fun kv => kv.1 == k))
  | .arr xs => some (xs.any (fun x =>
      match x with
      | .str s => s == k
      | _ => false))
  | .str s => some ((s.splitOn k).length > 1)
  | _ => none

/-- Python `wrapper_object['token']`: dict subscript; `none` when the
value is not a dict (a `TypeError`, unreachable after a successful
membership check on a dict). -/
def pySubscript (v : JValue) (k : String) : Option JValue :=
  match v with
  | .obj fs => fs.lookup k
  | _ => none

/-- The headers `_Refresh` sends (Authorization from the basic creds). -/
def refreshHeaders (basicAuth : String) : List (String × String) :=
  [(("content-type"), ("application/json")),
   (("user-agent"), USER_AGENT),
   (("Authorization"), basicAuth)]

/-- `Transport._Refresh`: `GET realm?scope=..&service=..` with the basic
credential; require 200; `json.loads` the body (raising on parse
failure); require a `token` member; install `Bearer(token)` as the
current bearer credential. -/
def _Refresh (s : TState) : RunResult Unit :=
  match s.realm with
  | none => RunResult.err (PyError.attributeError ("_realm")) s
  | some realm =>
  match s.service with
  | none => RunResult.err (PyError.attributeError ("_service")) s
  | some service =>
  match s.http.request (realm ++ "?" ++ urlencodeScopeService s.scopeStr service)
      ("GET") none (refreshHeaders s.basicAuth) with
  | none => RunResult.err PyError.transportExhausted s
  | some ((resp, content), http1) =>
      let s := { s with http := http1 }
      match _CheckState (resp.status == 200)
          ("Bad status during token exchange: " ++ toString resp.status ++
           "\n" ++ content.raw) with
      | Except.error e => RunResult.err e s
      | Except.ok _ =>
          match content.parsed with
          | none => RunResult.err (PyError.valueError content.raw) s
          | some wrapper =>
              match pyContains wrapper ("token") with
              | none =>
                  RunResult.err
                    (PyError.typeError ("argument is not iterable")) s
              | some b =>
                  match _CheckState b
                      ("Malformed JSON response: " ++ content.raw) with
                  | Except.error e => RunResult.err e s
                  | Except.ok _ =>
                      match pySubscript wrapper ("token") with
                      | none =>
                          RunResult.err
                            (PyError.typeError ("unsubscriptable object")) s
                      | some tok =>
                          RunResult.ok () { s with bearer := some ⟨tok⟩ }

/-! ### `Transport.Request` -/

/-- `if not method: method = 'GET' if not body else 'PUT'`. -/
def effectiveMethod (method0 body : Option String) : String :=
  if pyTruthy method0 then method0.getD ("")
  else if pyTruthy body then "PUT" else "GET"

/-- The per-attempt header dict built inside the `Request` loop. -/
def buildRequestHeaders (bearerVal : String) (method : String)
    (body content_type : Option String)
    (accepted_mimes : Option (List String)) : List (String × String) :=
  ([(("Authorization"), bearerVal), (("user-agent"), USER_AGENT)] ++
   (if pyTruthy body then
      [(("content-type"),
        if pyTruthy content_type then content_type.getD ("")
        else "application/json")]
    else []) ++
   (match accepted_mimes with
    | some mimes => [(("Accept"), joinComma mimes)]
    | none => []) ++
   (if (method == "POST" || method == "PUT") && !(pyTruthy body) then
      [(("content-length"), ("0"))]
    else []))

/-- One iteration of the `Request` loop up to and including the
transport call: read the current bearer credential (raising when the
attribute is unset), build the headers, issue the request. -/
def oneAttempt (s : TState) (url method : String)
    (body content_type : Option String)
    (accepted_mimes : Option (List String)) : RunResult (HttpResponse × Body) :=
  match s.bearer with
  | none => RunResult.err (PyError.attributeError ("_bearer_creds")) s
  | some b =>
      match s.http.request url method body
          (buildRequestHeaders b.Get method body content_type accepted_mimes) with
      | none => RunResult.err PyError.transportExhausted s
      | some ((resp, content), http1) =>
          RunResult.ok (resp, content) { s with http := http1 }

/-- The final status check of `Request`:
`if resp.status not in accepted_codes: raise V2DiagnosticException`.
With `accepted_codes=None` the membership test itself raises
`TypeError`. -/
def finalCheck (s : TState) (resp : HttpResponse) (content : Body)
    (accepted_codes : Option (List Nat)) : RunResult (HttpResponse × Body) :=
  match accepted_codes with
  | none =>
      RunResult.err
        (PyError.typeError ("argument of type NoneType is not iterable")) s
  | some codes =>
      if codes.contains resp.status then RunResult.ok (resp, content) s
      else RunResult.err (PyError.v2Diagnostic resp content) s

/-- `Transport.Request`: the `for retry in [True, False]` loop unrolled.
First attempt; on a non-401 break to the final check; on a 401 refresh
and run the second attempt, which falls through to the final check
whatever its status (no second refresh, no third attempt). -/
def Request (s : TState) (url : String) (accepted_codes : Option (List Nat))
    (method0 body content_type : Option String)
    (accepted_mimes : Option (List String)) : RunResult (HttpResponse × Body) :=
  let method := effectiveMethod method0 body
  match oneAttempt s url method body content_type accepted_mimes with
  | RunResult.err e s1 => RunResult.err e s1
  | RunResult.ok (resp, content) s1 =>
      if resp.status != 401 then finalCheck s1 resp content accepted_codes
      else
        match _Refresh s1 with
        | RunResult.err e s2 => RunResult.err e s2
        | RunResult.ok _ s2 =>
            match oneAttempt s2 url method body content_type accepted_mimes with
            | RunResult.err e s3 => RunResult.err e s3
            | RunResult.ok (resp2, content2) s3 =>
                finalCheck s3 resp2 content2 accepted_codes

/-! ### Construction -/

/-- `Transport.__init__`: store the collaborators, check the action
against `ACTIONS`, then eagerly `_Ping` and `_Refresh`.  `registry` is
`name.registry`; `scopeStr` is the opaque `name.scope(action)` string;
`basicAuth` is the value of `creds.Get()`. -/
def Transport.init (http : HttpTransport) (registry scopeStr basicAuth : String)
    (action : String) : RunResult Unit :=
  let s : TState :=
    { http := http, registry := registry, scopeStr := scopeStr,
      basicAuth := basicAuth, action := action,
      realm := none, service := none, bearer := none }
  match _CheckState (ACTIONS.contains action)
      ("Invalid action supplied to docker_http.Transport: " ++ action) with
  | Except.error e => RunResult.err e s
  | Except.ok _ =>
      match _Ping s with
      | RunResult.err e s1 => RunResult.err e s1
      | RunResult.ok _ s1 => _Refresh s1

/-! ### `ParseNextLinkHeader`

The source matches the header against the regex
`.*<(.+)>;\s*rel="next".*` with `re.match` (anchored at the start, no
end anchor, `.` not matching newline, greedy quantifiers).  The match
is embedded directly: the leading greedy `.*<` selects the rightmost
feasible `<` reachable without crossing a newline; the greedy `(.+)`
then selects the longest newline-free group followed by
`>;` + whitespace + `rel="next"`; the trailing `.*` matches the empty
string and constrains nothing. -/

/-- Python `\s` whitespace. -/
def isPySpace (c : Char) : Bool :=
  c == ' ' || c == '\t' || c == '\n' || c == '\r' || c == '\x0b' || c == '\x0c'

/-- Does `>;\s*rel="next"` match at the front of `cs`? -/
def relNextAfter : List Char → Bool
  | '>' :: ';' :: rest =>
      ("rel=\"next\"").toList.isPrefixOf (rest.dropWhile isPySpace)
  | _ => false

/-- All splits `(take k, drop k)` of `cs`, longest first part first. -/
def splitsDesc : List Char → List (List Char × List Char)
  | [] => [([], [])]
  | c :: cs =>
      ((splitsDesc cs).map (fun p => (c :: p.1, p.2))) ++ [([], c :: cs)]

/-- Greedy `(.+)>;\s*rel="next"` on the text after a chosen `<`: the
longest nonempty newline-free group whose remainder matches. -/
def matchAfterLt (cs : List Char) : Option (List Char) :=
  (splitsDesc cs).findSome? (fun p =>
    if p.1 ≠ [] ∧ ('\n' ∉ p.1) ∧ relNextAfter p.2 = true then some p.1
    else none)

/-- The suffixes following each `<` reachable by the leading `.*`
(left to right; a newline stops the scan since `.` cannot cross it). -/
def ltSuffixes : List Char → List (List Char)
  | [] => []
  | '\n' :: _ => []
  | '<' :: cs => cs :: ltSuffixes cs
  | _ :: cs => ltSuffixes cs

/-- `ParseNextLinkHeader(resp)`: pull the `link` header (falsy values
give `None`) and run the regex; the group of the match, if any. -/
def ParseNextLinkHeader (resp : HttpResponse) : Option String :=
  match resp.get ("link") with
  | none => none
  | some link =>
      if link == "" then none
      else
        match ((ltSuffixes link.toList).reverse).findSome? matchAfterLt with
        | none => none
        | some g => some (String.mk g)

/-! ### `Transport.PaginatedRequest` -/

/-- The generator loop of `PaginatedRequest`, fuelled (each iteration
consumes at least one scripted response, so the script length bounds
the page count; fuel exhaustion is a model artifact).  Returns the
pages yielded, and the generator outcome (normal stop, or the raised
error) with the final state. -/
def PaginatedRequestAux : Nat → TState → Option String → Option (List Nat) →
    Option String → Option String → Option String →
    List (HttpResponse × Body) × RunResult Unit
  | 0, s, _, _, _, _, _ => ([], RunResult.err PyError.transportExhausted s)
  | fuel1 + 1, s, next_page, accepted_codes, method0, body, content_type =>
      if pyTruthy next_page then
        match Request s (next_page.getD ("")) accepted_codes method0 body
            content_type none with
        | RunResult.err e s1 => ([], RunResult.err e s1)
        | RunResult.ok (resp, content) s1 =>
            let np := ParseNextLinkHeader resp
            let r := PaginatedRequestAux fuel1 s1 np accepted_codes method0 body
                content_type
            ((resp, content) :: r.1, r.2)
      else ([], RunResult.ok () s)

/-- `Transport.PaginatedRequest`: run the loop from the starting URL;
the fuel is one more than the response script length, enough for every
reachable iteration. -/
def PaginatedRequest (s : TState) (url : String)
    (accepted_codes : Option (List Nat))
    (method0 body content_type : Option String) :
    List (HttpResponse × Body) × RunResult Unit :=
  PaginatedRequestAux (s.http.responses.length + 1) s (some url) accepted_codes
    method0 body content_type

/-! ### Concrete challenge-header builders (analysis scaffolding) -/

/-- The comma token `realm="R"` for a quote-free realm value `r`. -/
def realmTok (r : List Char) : List Char :=
  (['r','e','a','l','m','='] : List Char) ++ (('"' : Char) :: (r ++ [('"' : Char)]))

/-- The comma token `service="S"` for a quote-free service value `s`. -/
def serviceTok (s : List Char) : List Char :=
  (['s','e','r','v','i','c','e','='] : List Char) ++
    (('"' : Char) :: (s ++ [('"' : Char)]))

/-- A two-token `Bearer a,b` challenge header (no whitespace). -/
def bearerChallenge (a b : List Char) : String :=
  String.mk ((['B','e','a','r','e','r',' '] : List Char) ++ (a ++ ((',' : Char) :: b)))

/-! ### Observers on run results -/

/-- The object state carried by a run result (final state on return,
state at the raise point on an exception). -/
def RunResult.state {α : Type} : RunResult α → TState
  | RunResult.ok _ s => s
  | RunResult.err _ s => s

/-- Did the run return normally? -/
def RunResult.isOk {α : Type} : RunResult α → Bool
  | RunResult.ok _ _ => true
  | RunResult.err _ _ => false

/-- Did the run raise the typed `V2DiagnosticException`? -/
def RunResult.isDiagnosticErr {α : Type} : RunResult α → Bool
  | RunResult.err (PyError.v2Diagnostic _ _) _ => true
  | _ => false

/-- Did the run raise the typed `BadStateException`? -/
def RunResult.isBadState {α : Type} : RunResult α → Bool
  | RunResult.err (PyError.badState _) _ => true
  | _ => false

/-- The error a run raised, if any. -/
def RunResult.raised {α : Type} : RunResult α → Option PyError
  | RunResult.err e _ => some e
  | RunResult.ok _ _ => none

/-! ### Helper lemmas -/

theorem lookup_some_any {β : Type} (fs : List (String × β)) (k : String) (v : β)
    (h : fs.lookup k = some v) : fs.any (fun kv => kv.1 == k) = true := by
  induction fs with
  | nil => simp [List.lookup] at h
  | cons p t ih =>
      obtain ⟨k1, v1⟩ := p
      by_cases hk : k = k1
      · subst hk
        simp
      · have hb : (k == k1) = false := by
          simp [hk]
        simp only [List.lookup, hb] at h
        simp [ih h]

theorem lookup_none_any {β : Type} (fs : List (String × β)) (k : String)
    (h : fs.lookup k = none) : fs.any (fun kv => kv.1 == k) = false := by
  induction fs with
  | nil => simp
  | cons p t ih =>
      obtain ⟨k1, v1⟩ := p
      by_cases hk : k = k1
      · subst hk
        simp [List.lookup] at h
      · have hb : (k == k1) = false := by
          simp [hk]
        simp only [List.lookup, hb] at h
        have hb1 : (k1 == k) = false := by
          simp
          exact fun hh => hk hh.symm
        simp [hb1, ih h]

theorem splitCharList_ne_nil (c : Char) (l : List Char) :
    splitCharList c l ≠ [] := by
  cases l with
  | nil => simp [splitCharList]
  | cons x xs =>
      simp only [splitCharList]
      match hr : splitCharList c xs with
      | [] => simp
      | h :: t =>
          by_cases hx : (x == c) = true
          · simp [hx]
          · simp at hx
            simp [hx]

theorem splitCharList_no_sep (c : Char) (xs : List Char) (h : c ∉ xs) :
    splitCharList c xs = [xs] := by
  induction xs with
  | nil => rfl
  | cons x t ih =>
      have hx : x ≠ c := fun hh => h (hh ▸ List.mem_cons_self x t)
      have ht : c ∉ t := fun hh => h (List.mem_cons_of_mem x hh)
      simp only [splitCharList, ih ht]
      simp [hx]

theorem splitCharList_append (c : Char) (xs ys : List Char) (h : c ∉ xs) :
    splitCharList c (xs ++ c :: ys) = xs :: splitCharList c ys := by
  induction xs with
  | nil =>
      simp only [List.nil_append, splitCharList]
      match hr : splitCharList c ys with
      | [] => exact absurd hr (splitCharList_ne_nil c ys)
      | hh :: tt => simp
  | cons x t ih =>
      have hx : x ≠ c := fun hh => h (hh ▸ List.mem_cons_self x t)
      have ht : c ∉ t := fun hh => h (List.mem_cons_of_mem x hh)
      have hxb : (x == c) = false := beq_eq_false_iff_ne.mpr hx
      simp only [List.cons_append, splitCharList]
      simp only [List.append_eq]
      rw [ih ht]
      simp [hxb]

theorem pySplitChar_pair (a b : List Char) (ha : (',' : Char) ∉ a)
    (hb : (',' : Char) ∉ b) :
    pySplitChar (String.mk (a ++ ((',' : Char) :: b))) (',') =
      [String.mk a, String.mk b] := by
  show (splitCharList (',') (a ++ ((',' : Char) :: b))).map String.mk = _
  rw [splitCharList_append (',') _ _ ha, splitCharList_no_sep (',') _ hb]
  rfl

theorem dropWhile_of_head_ne (c : Char) (l : List Char)
    (h : ∀ x ∈ l.head?, x ≠ c) : l.dropWhile (· == c) = l := by
  cases l with
  | nil => rfl
  | cons x t =>
      have hx : x ≠ c := h x (by simp)
      have hxb : (x == c) = false := beq_eq_false_iff_ne.mpr hx
      simp [List.dropWhile, hxb]

theorem strip_wrap (r : List Char) (h : ('"' : Char) ∉ r) :
    pyStripChar (String.mk (('"' : Char) :: (r ++ [('"' : Char)]))) ('"') =
      String.mk r := by
  simp only [pyStripChar, String.toList]
  refine congrArg String.mk ?_
  cases r with
  | nil => rfl
  | cons a t =>
      have ha : a ≠ '"' := fun hh => h (hh ▸ List.mem_cons_self a t)
      have hab : (a == '"') = false := beq_eq_false_iff_ne.mpr ha
      have hqq : (('"' : Char) == '"') = true := by rfl
      have hlast : ∀ x ∈ ((a :: t).reverse).head?, x ≠ ('"' : Char) := by
        intro x hx hc
        subst hc
        have hmem : ('"' : Char) ∈ (a :: t).reverse := by
          cases hr : (a :: t).reverse with
          | nil =>
              exact absurd (List.reverse_eq_nil_iff.mp hr) (by simp)
          | cons y ys =>
              rw [hr] at hx
              simp at hx
              subst hx
              simp [hr]
        exact h (List.mem_reverse.mp hmem)
      have e1 : ((('"' : Char) :: (a :: t ++ [('"' : Char)])).dropWhile (· == '"')) =
          a :: (t ++ [('"' : Char)]) := by
        simp only [List.dropWhile, hqq, hab]
        rfl
      have e2 : (a :: (t ++ [('"' : Char)])).reverse =
          ('"' : Char) :: (a :: t).reverse := by
        have e0 : a :: (t ++ [('"' : Char)]) = (a :: t) ++ [('"' : Char)] :=
          (List.cons_append a t [('"' : Char)]).symm
        rw [e0, List.reverse_append]
        rfl
      have e3 : ((('"' : Char) :: (a :: t).reverse).dropWhile (· == '"')) =
          (a :: t).reverse := by
        simp only [List.dropWhile, hqq]
        exact dropWhile_of_head_ne ('"') ((a :: t).reverse) hlast
      rw [e1, e2, e3, List.reverse_reverse]

theorem scan_no_service (ts : List String) (realm0 service0 : Option String)
    (h : ∀ t ∈ ts, pyStartsWith t _SERVICE_PFX = false) :
    (scanChallengeTokens ts realm0 service0).2 = service0 := by
  induction ts generalizing realm0 with
  | nil => rfl
  | cons t tt ih =>
      have hts : ∀ u ∈ tt, pyStartsWith u _SERVICE_PFX = false :=
        fun u hu => h u (List.mem_cons_of_mem t hu)
      have hth : pyStartsWith t _SERVICE_PFX = false := h t (List.mem_cons_self t tt)
      by_cases hr : pyStartsWith t _REALM_PFX = true
      · simp only [scanChallengeTokens, hr, if_true]
        exact ih _ hts
      · simp only [scanChallengeTokens, hr, hth]
        simp only [if_false, Bool.false_eq_true]
        exact ih _ hts

theorem ping_realm_service (registry scopeStr basicAuth action ch : String)
    (c0 : Body) (rest : List (HttpResponse × Body)) (log0 : List CallRecord)
    (rv : String) (sv : Option String)
    (hch : pyStartsWith ch _CHALLENGE = true)
    (hscan : scanChallengeTokens (pySplitChar (pyDrop ch (_CHALLENGE.length)) (','))
        none (some registry) = (some rv, sv))
    (hrv : (rv != "") = true) :
    _Ping ⟨⟨(⟨401, [(("www-authenticate"), ch)]⟩, c0) :: rest, log0⟩, registry,
        scopeStr, basicAuth, action, none, none, none⟩ =
      RunResult.ok () ⟨⟨rest, log0 ++ [⟨Scheme registry ++ "://" ++ registry ++ "/v2/",
          ("GET"), none, pingHeaders⟩]⟩, registry, scopeStr, basicAuth, action,
        some rv, sv, none⟩ := by
  simp [_Ping, HttpTransport.request, _CheckState, HttpResponse.get, List.lookup,
    hch, hscan, hrv]

theorem ping_state_service (registry scopeStr basicAuth action ch : String)
    (c0 : Body) (rest : List (HttpResponse × Body)) (log0 : List CallRecord)
    (hch : pyStartsWith ch _CHALLENGE = true) :
    (RunResult.state (_Ping ⟨⟨(⟨401, [(("www-authenticate"), ch)]⟩, c0) :: rest, log0⟩,
        registry, scopeStr, basicAuth, action, none, none, none⟩)).service =
      (scanChallengeTokens (pySplitChar (pyDrop ch (_CHALLENGE.length)) (','))
        none (some registry)).2 := by
  rcases hscan : scanChallengeTokens (pySplitChar (pyDrop ch (_CHALLENGE.length)) (','))
      none (some registry) with ⟨ro, so⟩
  cases ro with
  | none =>
      simp [_Ping, HttpTransport.request, _CheckState, HttpResponse.get, List.lookup,
        hch, hscan, RunResult.state]
  | some rv =>
      by_cases hrv : (rv != "") = true
      · simp [_Ping, HttpTransport.request, _CheckState, HttpResponse.get, List.lookup,
          hch, hscan, hrv, RunResult.state]
      · have hrv2 : (rv != "") = false := by
          exact Bool.not_eq_true _ ▸ Bool.of_not_eq_true hrv
        simp [_Ping, HttpTransport.request, _CheckState, HttpResponse.get, List.lookup,
          hch, hscan, hrv2, RunResult.state]

theorem oneAttempt_not_diag (s : TState) (url method : String)
    (body content_type : Option String) (accepted_mimes : Option (List String)) :
    (oneAttempt s url method body content_type accepted_mimes).isDiagnosticErr = false := by
  unfold oneAttempt
  split
  · rfl
  · split
    · rfl
    · rfl

theorem checkState_error (p : Bool) (msg : String) (e : PyError)
    (h : _CheckState p msg = Except.error e) : e = PyError.badState msg := by
  unfold _CheckState at h
  split at h
  · simp at h
  · injection h with h1
    exact h1.symm

theorem refresh_not_diag (s : TState) : (_Refresh s).isDiagnosticErr = false := by
  unfold _Refresh
  repeat' split
  all_goals
    first
    | rfl
    | (rename_i heq
       rw [checkState_error _ _ _ heq]
       rfl)

theorem err_not_diag_transfer {α β : Type} (e : PyError) (s1 s2 : TState)
    (h : (@RunResult.err α e s1).isDiagnosticErr = false) :
    (@RunResult.err β e s2).isDiagnosticErr = false := by
  cases e
  case v2Diagnostic r c => simp [RunResult.isDiagnosticErr] at h
  all_goals rfl

/-! ### Claims -/

/-- C4: the Diagnostic Decoder is total (it returns a diagnostic list in
every case, enforced by its type here): a body that parses as JSON with
an `errors` array yields one Diagnostic per array element in array
order, each carrying that element's code, message and detail fields
(missing fields give an absent value); a body that fails to parse
yields exactly one Diagnostic with code UNKNOWN and message equal to
the raw body text. -/
theorem claim_C4 (raw : String) (fs : List (String × JValue)) (es : List JValue)
    (dfs : List (String × JValue)) :
    (_DiagnosticsFromContent ⟨raw, none⟩ =
      [⟨JValue.obj [(("code"), JValue.str ("UNKNOWN")),
                    (("message"), JValue.str raw)]⟩]) ∧
    (fs.lookup ("errors") = some (JValue.arr es) →
      _DiagnosticsFromContent ⟨raw, some (JValue.obj fs)⟩ = es.map Diagnostic.mk) ∧
    ((Diagnostic.mk (JValue.obj dfs)).code = dfs.lookup ("code") ∧
     (Diagnostic.mk (JValue.obj dfs)).message = dfs.lookup ("message") ∧
     (Diagnostic.mk (JValue.obj dfs)).detail = dfs.lookup ("detail")) := by
  refine ⟨rfl, ?_, rfl, rfl, rfl⟩
  intro h
  simp [_DiagnosticsFromContent, dictGetDefault, h, pyIter, Option.bind]

/-- C4 witness: the decoder at the two concrete bodies of the spec. -/
theorem claim_C4_witness :
    (_DiagnosticsFromContent ⟨("not json"), none⟩ =
      [⟨JValue.obj [(("code"), JValue.str ("UNKNOWN")),
                    (("message"), JValue.str ("not json"))]⟩]) ∧
    (_DiagnosticsFromContent ⟨("ej"), some (JValue.obj [(("errors"), JValue.arr
        [JValue.obj [(("code"), JValue.str ("X")), (("message"), JValue.str ("m")),
                     (("detail"), JValue.str ("d"))]])])⟩ =
      [Diagnostic.mk (JValue.obj [(("code"), JValue.str ("X")),
          (("message"), JValue.str ("m")), (("detail"), JValue.str ("d"))])]) ∧
    (Diagnostic.mk (JValue.obj [(("code"), JValue.str ("X")),
        (("message"), JValue.str ("m")), (("detail"), JValue.str ("d"))])).code =
      some (JValue.str ("X")) :=
  ⟨(claim_C4 ("not json") [] [] []).1,
   (claim_C4 ("ej") [(("errors"), JValue.arr [JValue.obj [(("code"), JValue.str ("X")),
       (("message"), JValue.str ("m")), (("detail"), JValue.str ("d"))]])]
       [JValue.obj [(("code"), JValue.str ("X")), (("message"), JValue.str ("m")),
       (("detail"), JValue.str ("d"))]] []).2.1 (by rfl),
   (claim_C4 ("") [] [] [(("code"), JValue.str ("X")), (("message"), JValue.str ("m")),
       (("detail"), JValue.str ("d"))]).2.2.1⟩

/-- C9: an action outside `ACTIONS` makes construction fail with the
typed `BadStateException` while leaving the HTTP transport untouched
(empty-delta log, unconsumed script): no transport object exists in an
invalid-action state and no network call is made. -/
theorem claim_C9 (http : HttpTransport) (registry scopeStr basicAuth action : String)
    (hact : ACTIONS.contains action = false) :
    Transport.init http registry scopeStr basicAuth action =
      RunResult.err (PyError.badState
          ("Invalid action supplied to docker_http.Transport: " ++ action))
        ⟨http, registry, scopeStr, basicAuth, action, none, none, none⟩ := by
  have hmem : ¬ action ∈ ACTIONS := by simpa using hact
  simp [Transport.init, _CheckState, hmem]

/-- C9 witness: the literal string `delete` is not an element of
`ACTIONS` (the delete action is the `push,pull` scope), so construction
with it fails before any call. -/
theorem claim_C9_witness :
    Transport.init ⟨[], []⟩ ("reg.example.com") ("repository:foo:pull")
        ("Basic Zm9v") ("delete") =
      RunResult.err (PyError.badState
          ("Invalid action supplied to docker_http.Transport: " ++ ("delete")))
        ⟨⟨[], []⟩, ("reg.example.com"), ("repository:foo:pull"), ("Basic Zm9v"),
          ("delete"), none, none, none⟩ :=
  claim_C9 ⟨[], []⟩ ("reg.example.com") ("repository:foo:pull") ("Basic Zm9v")
    ("delete") (by decide)

/-- C3 (code bug): on a 401 ping response whose `Bearer `-prefixed
challenge has no `realm=` token, `_CheckState(self._realm, ...)` reads
the never-assigned `_realm` attribute, so the code raises
`AttributeError` — not the typed `BadStateException` the spec (and the
_CheckState call itself) intends. -/
theorem claim_C3 :
    (RunResult.raised (_Ping ⟨⟨[(⟨401, [(("www-authenticate"),
        ("Bearer service=\"s\""))]⟩, ⟨(""), none⟩)], []⟩, ("reg.example.com"),
        ("repository:foo:pull"), ("Basic Zm9v"), ("pull"), none, none, none⟩) =
      some (PyError.attributeError ("_realm"))) ∧
    (RunResult.isBadState (_Ping ⟨⟨[(⟨401, [(("www-authenticate"),
        ("Bearer service=\"s\""))]⟩, ⟨(""), none⟩)], []⟩, ("reg.example.com"),
        ("repository:foo:pull"), ("Basic Zm9v"), ("pull"), none, none, none⟩) =
      false) :=
  ⟨rfl, rfl⟩

/-- C6: a ping response with any status other than 401 makes
construction fail with the typed `BadStateException` carrying the
unexpected status; exactly the one ping call was made and no transport
object is produced. -/
theorem claim_C6 (registry scopeStr basicAuth action : String) (st : Nat)
    (hdrs : List (String × String)) (c : Body) (rest : List (HttpResponse × Body))
    (log0 : List CallRecord) (hact : ACTIONS.contains action = true)
    (hst : (st == 401) = false) :
    Transport.init ⟨(⟨st, hdrs⟩, c) :: rest, log0⟩ registry scopeStr basicAuth action =
      RunResult.err (PyError.badState ("Unexpected status: " ++ toString st))
        ⟨⟨rest, log0 ++ [⟨Scheme registry ++ "://" ++ registry ++ "/v2/", ("GET"),
            none, pingHeaders⟩]⟩,
         registry, scopeStr, basicAuth, action, none, none, none⟩ := by
  have hmem : action ∈ ACTIONS := by simpa using hact
  simp [Transport.init, _Ping, HttpTransport.request, _CheckState, hmem, hst]

/-- C6 witness: a 200 ping response fails construction. -/
theorem claim_C6_witness :
    Transport.init ⟨[(⟨200, []⟩, ⟨("ok"), none⟩)], []⟩ ("reg.example.com")
        ("repository:foo:pull") ("Basic Zm9v") ("pull") =
      RunResult.err (PyError.badState ("Unexpected status: " ++ toString (200 : Nat)))
        ⟨⟨[], [⟨Scheme ("reg.example.com") ++ "://" ++ ("reg.example.com") ++ "/v2/",
            ("GET"), none, pingHeaders⟩]⟩,
         ("reg.example.com"), ("repository:foo:pull"), ("Basic Zm9v"), ("pull"),
         none, none, none⟩ := by
  have h := claim_C6 ("reg.example.com") ("repository:foo:pull") ("Basic Zm9v")
    ("pull") 200 [] ⟨("ok"), none⟩ [] [] (by decide) (by decide)
  simpa using h

/-- C2: a Refresh whose exchange response is 200 with a JSON object body
holding a `token` field installs a new Bearer credential wrapping
exactly that token value; a 200 object body without a `token` field
fails with the typed `BadStateException` (malformed JSON response) and
leaves the previously current bearer credential unchanged. -/
theorem claim_C2 (registry scopeStr basicAuth action realm service : String)
    (bearer0 : Option Bearer) (xhdrs : List (String × String)) (raw : String)
    (fs : List (String × JValue)) (rest : List (HttpResponse × Body))
    (log0 : List CallRecord) :
    (∀ tokv : JValue, fs.lookup ("token") = some tokv →
      _Refresh ⟨⟨(⟨200, xhdrs⟩, ⟨raw, some (JValue.obj fs)⟩) :: rest, log0⟩,
          registry, scopeStr, basicAuth, action, some realm, some service, bearer0⟩ =
        RunResult.ok () ⟨⟨rest, log0 ++
            [⟨realm ++ "?" ++ urlencodeScopeService scopeStr service, ("GET"),
              none, refreshHeaders basicAuth⟩]⟩,
          registry, scopeStr, basicAuth, action, some realm, some service,
          some ⟨tokv⟩⟩) ∧
    (fs.lookup ("token") = none →
      _Refresh ⟨⟨(⟨200, xhdrs⟩, ⟨raw, some (JValue.obj fs)⟩) :: rest, log0⟩,
          registry, scopeStr, basicAuth, action, some realm, some service, bearer0⟩ =
        RunResult.err (PyError.badState ("Malformed JSON response: " ++ raw))
          ⟨⟨rest, log0 ++
              [⟨realm ++ "?" ++ urlencodeScopeService scopeStr service, ("GET"),
                none, refreshHeaders basicAuth⟩]⟩,
            registry, scopeStr, basicAuth, action, some realm, some service,
            bearer0⟩) := by
  constructor
  · intro tokv h
    have hany := lookup_some_any fs ("token") tokv h
    simp [_Refresh, HttpTransport.request, _CheckState, pyContains, pySubscript,
      hany, h]
  · intro h
    have hany := lookup_none_any fs ("token") h
    simp [_Refresh, HttpTransport.request, _CheckState, pyContains, hany]

/-- C2 witness: the spec's `abc123` exchange at a concrete state, and a
token-less body failing while keeping the old credential. -/
theorem claim_C2_witness :
    (_Refresh ⟨⟨[(⟨200, []⟩, ⟨("tb"), some (JValue.obj [(("token"),
          JValue.str ("abc123"))])⟩)], []⟩, ("reg.example.com"), ("sc"),
        ("Basic Zm9v"), ("pull"), some ("https://auth.example.com/token"),
        some ("reg.example.com"), some ⟨JValue.str ("old")⟩⟩ =
      RunResult.ok () ⟨⟨[], [] ++
          [⟨("https://auth.example.com/token") ++ "?" ++
              urlencodeScopeService ("sc") ("reg.example.com"), ("GET"), none,
            refreshHeaders ("Basic Zm9v")⟩]⟩,
        ("reg.example.com"), ("sc"), ("Basic Zm9v"), ("pull"),
        some ("https://auth.example.com/token"), some ("reg.example.com"),
        some ⟨JValue.str ("abc123")⟩⟩) ∧
    (_Refresh ⟨⟨[(⟨200, []⟩, ⟨("nb"), some (JValue.obj [(("nottoken"),
          JValue.str ("x"))])⟩)], []⟩, ("reg.example.com"), ("sc"),
        ("Basic Zm9v"), ("pull"), some ("https://auth.example.com/token"),
        some ("reg.example.com"), some ⟨JValue.str ("old")⟩⟩ =
      RunResult.err (PyError.badState ("Malformed JSON response: " ++ ("nb")))
        ⟨⟨[], [] ++
            [⟨("https://auth.example.com/token") ++ "?" ++
                urlencodeScopeService ("sc") ("reg.example.com"), ("GET"), none,
              refreshHeaders ("Basic Zm9v")⟩]⟩,
          ("reg.example.com"), ("sc"), ("Basic Zm9v"), ("pull"),
          some ("https://auth.example.com/token"), some ("reg.example.com"),
          some ⟨JValue.str ("old")⟩⟩) :=
  ⟨(claim_C2 ("reg.example.com") ("sc") ("Basic Zm9v") ("pull")
      ("https://auth.example.com/token") ("reg.example.com")
      (some ⟨JValue.str ("old")⟩) [] ("tb")
      [(("token"), JValue.str ("abc123"))] [] []).1 (JValue.str ("abc123")) (by rfl),
   (claim_C2 ("reg.example.com") ("sc") ("Basic Zm9v") ("pull")
      ("https://auth.example.com/token") ("reg.example.com")
      (some ⟨JValue.str ("old")⟩) [] ("nb")
      [(("nottoken"), JValue.str ("x"))] [] []).2 (by rfl)⟩

/-- C8: each attempt of `Request` sends exactly the headers built by
`buildRequestHeaders` (logged with the call): they contain the current
Bearer Authorization value and the fixed user-agent; `content-type` is
present exactly when the body is present (the given content type, else
`application/json`); `Accept` is the comma-joined MIME list exactly
when the accepted-MIME list is given; and `content-length: 0` is
present exactly when the method is POST or PUT with no body present. -/
theorem claim_C8 (bv : Bearer) (url method : String) (body ct : Option String)
    (mimes : Option (List String)) (resp : HttpResponse) (c : Body)
    (rest : List (HttpResponse × Body)) (log0 : List CallRecord)
    (registry scopeStr basicAuth action : String) (ro so : Option String) :
    (oneAttempt ⟨⟨(resp, c) :: rest, log0⟩, registry, scopeStr, basicAuth, action,
        ro, so, some bv⟩ url method body ct mimes =
      RunResult.ok (resp, c) ⟨⟨rest, log0 ++ [⟨url, method, body,
          buildRequestHeaders bv.Get method body ct mimes⟩]⟩, registry, scopeStr,
        basicAuth, action, ro, so, some bv⟩) ∧
    ((("Authorization"), bv.Get) ∈ buildRequestHeaders bv.Get method body ct mimes ∧
     (("user-agent"), USER_AGENT) ∈ buildRequestHeaders bv.Get method body ct mimes) ∧
    ((buildRequestHeaders bv.Get method body ct mimes).lookup ("content-type") =
      (if pyTruthy body then
        some (if pyTruthy ct then ct.getD ("") else ("application/json"))
      else none)) ∧
    ((buildRequestHeaders bv.Get method body ct mimes).lookup ("Accept") =
      Option.map joinComma mimes) ∧
    ((buildRequestHeaders bv.Get method body ct mimes).lookup ("content-length") =
      (if ((method == "POST" || method == "PUT") && !(pyTruthy body)) = true then
        some ("0")
      else none)) := by
  refine ⟨?_, ⟨?_, ?_⟩, ?_, ?_, ?_⟩
  · simp [oneAttempt, HttpTransport.request]
  · simp [buildRequestHeaders]
  · simp [buildRequestHeaders]
  · cases hb : pyTruthy body <;> cases hct : pyTruthy ct <;>
      cases mimes <;>
      cases hm : (method == "POST" || method == "PUT") <;>
      simp [buildRequestHeaders, hb, hct, hm, List.lookup]
  · cases hb : pyTruthy body <;>
      cases mimes <;>
      cases hm : (method == "POST" || method == "PUT") <;>
      simp [buildRequestHeaders, hb, hm, List.lookup]
  · cases hb : pyTruthy body <;>
      cases mimes <;>
      cases hm : (method == "POST" || method == "PUT") <;>
      simp [buildRequestHeaders, hb, hm, List.lookup]

/-- C10: a `Request` call that omits `accepted_codes` (leaving it `None`)
can never return successfully and can never raise the typed
`V2DiagnosticException`: every path reaching the final status check
raises `TypeError` from the membership test on `None`. -/
theorem claim_C10 (s : TState) (url : String) (m b ct : Option String)
    (am : Option (List String)) (registry scopeStr basicAuth action : String)
    (ro so : Option String) (b0 : Bearer) (st : Nat)
    (hh : List (String × String)) (cc : Body) (rest : List (HttpResponse × Body))
    (log0 : List CallRecord) :
    ((Request s url none m b ct am).isOk = false ∧
     (Request s url none m b ct am).isDiagnosticErr = false) ∧
    ((st == 401) = false →
      Request ⟨⟨(⟨st, hh⟩, cc) :: rest, log0⟩, registry, scopeStr, basicAuth,
          action, ro, so, some b0⟩ url none m b ct am =
        RunResult.err
          (PyError.typeError ("argument of type NoneType is not iterable"))
          ⟨⟨rest, log0 ++ [⟨url, effectiveMethod m b, b,
              buildRequestHeaders b0.Get (effectiveMethod m b) b ct am⟩]⟩,
            registry, scopeStr, basicAuth, action, ro, so, some b0⟩) := by
  constructor
  · cases hA : oneAttempt s url (effectiveMethod m b) b ct am with
    | err e s1 =>
        have hd := oneAttempt_not_diag s url (effectiveMethod m b) b ct am
        rw [hA] at hd
        constructor
        · simp [Request, hA, RunResult.isOk]
        · simpa [Request, hA] using hd
    | ok v s1 =>
        obtain ⟨resp, content⟩ := v
        by_cases hst : (resp.status != 401) = true
        · constructor
          · simp [Request, hA, hst, finalCheck, RunResult.isOk]
          · simp [Request, hA, hst, finalCheck, RunResult.isDiagnosticErr]
        · have hst2 : (resp.status != 401) = false := by
            exact Bool.not_eq_true _ ▸ Bool.of_not_eq_true hst
          cases hR : _Refresh s1 with
          | err e s2 =>
              have hd := refresh_not_diag s1
              rw [hR] at hd
              constructor
              · simp [Request, hA, hst2, hR, RunResult.isOk]
              · have hd2 : (@RunResult.err (HttpResponse × Body) e s2).isDiagnosticErr
                    = false := err_not_diag_transfer e s2 s2 hd
                simpa [Request, hA, hst2, hR] using hd2
          | ok u s2 =>
              cases hA2 : oneAttempt s2 url (effectiveMethod m b) b ct am with
              | err e2 s3 =>
                  have hd := oneAttempt_not_diag s2 url (effectiveMethod m b) b ct am
                  rw [hA2] at hd
                  constructor
                  · simp [Request, hA, hst2, hR, hA2, RunResult.isOk]
                  · simpa [Request, hA, hst2, hR, hA2] using hd
              | ok v2 s3 =>
                  obtain ⟨resp2, content2⟩ := v2
                  constructor
                  · simp [Request, hA, hst2, hR, hA2, finalCheck, RunResult.isOk]
                  · simp [Request, hA, hst2, hR, hA2, finalCheck,
                      RunResult.isDiagnosticErr]
  · intro hst
    have hbne : ((⟨st, hh⟩ : HttpResponse).status != 401) = true := by
      simp [bne]
      simpa using hst
    simp [Request, oneAttempt, HttpTransport.request, hbne, finalCheck]

/-- C10 witness: a 200 response with `accepted_codes` omitted raises the
`TypeError` (never a success, never a diagnostic error). -/
theorem claim_C10_witness :
    Request ⟨⟨[(⟨200, []⟩, ⟨("ok"), none⟩)], []⟩, ("reg.example.com"), ("sc"),
        ("Basic Zm9v"), ("pull"), some ("https://auth.example.com/token"),
        some ("reg.example.com"), some ⟨JValue.str ("tok")⟩⟩
        ("https://reg.example.com/v2/foo/manifests/latest") none none none none none =
      RunResult.err
        (PyError.typeError ("argument of type NoneType is not iterable"))
        ⟨⟨[], [] ++ [⟨("https://reg.example.com/v2/foo/manifests/latest"),
            effectiveMethod none none, none,
            buildRequestHeaders (Bearer.Get ⟨JValue.str ("tok")⟩)
              (effectiveMethod none none) none none none⟩]⟩,
          ("reg.example.com"), ("sc"), ("Basic Zm9v"), ("pull"),
          some ("https://auth.example.com/token"), some ("reg.example.com"),
          some ⟨JValue.str ("tok")⟩⟩ :=
  (claim_C10 ⟨⟨[(⟨200, []⟩, ⟨("ok"), none⟩)], []⟩, ("reg.example.com"), ("sc"),
      ("Basic Zm9v"), ("pull"), some ("https://auth.example.com/token"),
      some ("reg.example.com"), some ⟨JValue.str ("tok")⟩⟩
      ("https://reg.example.com/v2/foo/manifests/latest") none none none none
      ("reg.example.com") ("sc") ("Basic Zm9v") ("pull")
      (some ("https://auth.example.com/token")) (some ("reg.example.com"))
      ⟨JValue.str ("tok")⟩ 200 [] ⟨("ok"), none⟩ [] []).2 (by decide)

/-- C1 counterexample: on two consecutive 401 responses (with a
successful token exchange in between and 401 not accepted) the call
does fail with the diagnostic error, but the HTTP transport was
invoked three times — the two request attempts plus the single
Refresh's token-exchange call — not the two the claim states. -/
theorem claim_C1_counterexample :
    (Request ⟨⟨[(⟨401, []⟩, ⟨("d1"), none⟩),
        (⟨200, []⟩, ⟨("tb"), some (JValue.obj [(("token"), JValue.str ("newtok"))])⟩),
        (⟨401, []⟩, ⟨("d2"), none⟩)], []⟩,
        ("reg.example.com"), ("sc"), ("Basic Zm9v"), ("pull"),
        some ("https://auth.example.com/token"), some ("reg.example.com"),
        some ⟨JValue.str ("oldtok")⟩⟩
        ("https://reg.example.com/v2/x") (some [200]) none none none
        none).isDiagnosticErr = true ∧
    ((Request ⟨⟨[(⟨401, []⟩, ⟨("d1"), none⟩),
        (⟨200, []⟩, ⟨("tb"), some (JValue.obj [(("token"), JValue.str ("newtok"))])⟩),
        (⟨401, []⟩, ⟨("d2"), none⟩)], []⟩,
        ("reg.example.com"), ("sc"), ("Basic Zm9v"), ("pull"),
        some ("https://auth.example.com/token"), some ("reg.example.com"),
        some ⟨JValue.str ("oldtok")⟩⟩
        ("https://reg.example.com/v2/x") (some [200]) none none none
        none).state.http.log.length == 2) = false ∧
    (Request ⟨⟨[(⟨401, []⟩, ⟨("d1"), none⟩),
        (⟨200, []⟩, ⟨("tb"), some (JValue.obj [(("token"), JValue.str ("newtok"))])⟩),
        (⟨401, []⟩, ⟨("d2"), none⟩)], []⟩,
        ("reg.example.com"), ("sc"), ("Basic Zm9v"), ("pull"),
        some ("https://auth.example.com/token"), some ("reg.example.com"),
        some ⟨JValue.str ("oldtok")⟩⟩
        ("https://reg.example.com/v2/x") (some [200]) none none none
        none).state.http.log.length = 3 :=
  ⟨rfl, rfl, rfl⟩

/-- C1 (amended): for every `Request` whose first response is 401 and
whose refresh token exchange succeeds (200 with a `token` field),
Refresh runs exactly once and the request is retried exactly once more
with the then-current (just refreshed) token; whatever the second
response is, exactly two request attempts and one exchange call are
made — three HTTP transport invocations in total — with no third
attempt and no second Refresh; if the second response status is not
accepted (in particular a second 401 when 401 is not accepted) the
call fails with the typed `V2DiagnosticException` carrying that second
response. -/
theorem claim_C1_amended (registry scopeStr basicAuth action realm service : String)
    (url xraw : String) (h1 xh h2 : List (String × String)) (tok0 tokv : JValue)
    (cA cB : Body) (xfs : List (String × JValue)) (st2 : Nat)
    (rest : List (HttpResponse × Body)) (log0 : List CallRecord)
    (m b ct : Option String) (am : Option (List String)) (codes : List Nat)
    (hx : xfs.lookup ("token") = some tokv) :
    (codes.contains st2 = true →
      Request ⟨⟨(⟨401, h1⟩, cA) :: (⟨200, xh⟩, ⟨xraw, some (JValue.obj xfs)⟩) ::
          (⟨st2, h2⟩, cB) :: rest, log0⟩, registry, scopeStr, basicAuth, action,
          some realm, some service, some ⟨tok0⟩⟩ url (some codes) m b ct am =
        RunResult.ok (⟨st2, h2⟩, cB)
          ⟨⟨rest, log0 ++
              [⟨url, effectiveMethod m b, b, buildRequestHeaders
                  (Bearer.Get ⟨tok0⟩) (effectiveMethod m b) b ct am⟩,
               ⟨realm ++ "?" ++ urlencodeScopeService scopeStr service, ("GET"),
                  none, refreshHeaders basicAuth⟩,
               ⟨url, effectiveMethod m b, b, buildRequestHeaders
                  (Bearer.Get ⟨tokv⟩) (effectiveMethod m b) b ct am⟩]⟩,
            registry, scopeStr, basicAuth, action, some realm, some service,
            some ⟨tokv⟩⟩) ∧
    (codes.contains st2 = false →
      Request ⟨⟨(⟨401, h1⟩, cA) :: (⟨200, xh⟩, ⟨xraw, some (JValue.obj xfs)⟩) ::
          (⟨st2, h2⟩, cB) :: rest, log0⟩, registry, scopeStr, basicAuth, action,
          some realm, some service, some ⟨tok0⟩⟩ url (some codes) m b ct am =
        RunResult.err (PyError.v2Diagnostic ⟨st2, h2⟩ cB)
          ⟨⟨rest, log0 ++
              [⟨url, effectiveMethod m b, b, buildRequestHeaders
                  (Bearer.Get ⟨tok0⟩) (effectiveMethod m b) b ct am⟩,
               ⟨realm ++ "?" ++ urlencodeScopeService scopeStr service, ("GET"),
                  none, refreshHeaders basicAuth⟩,
               ⟨url, effectiveMethod m b, b, buildRequestHeaders
                  (Bearer.Get ⟨tokv⟩) (effectiveMethod m b) b ct am⟩]⟩,
            registry, scopeStr, basicAuth, action, some realm, some service,
            some ⟨tokv⟩⟩) := by
  have hany := lookup_some_any xfs ("token") tokv hx
  constructor
  · intro hc
    have hc2 : st2 ∈ codes := by simpa using hc
    simp [Request, oneAttempt, HttpTransport.request, _Refresh, _CheckState,
      pyContains, pySubscript, hany, hx, finalCheck, hc2, List.append_assoc]
  · intro hc
    have hc2 : st2 ∉ codes := by simpa using hc
    simp [Request, oneAttempt, HttpTransport.request, _Refresh, _CheckState,
      pyContains, pySubscript, hany, hx, finalCheck, hc2, List.append_assoc]

/-- C1 witness: the two-consecutive-401 scenario at concrete inputs:
one refresh, two attempts, diagnostic error. -/
theorem claim_C1_witness :
    Request ⟨⟨[(⟨401, []⟩, ⟨("d1"), none⟩),
        (⟨200, []⟩, ⟨("tb"), some (JValue.obj [(("token"), JValue.str ("nt"))])⟩),
        (⟨401, []⟩, ⟨("d2"), none⟩)], []⟩,
        ("reg.example.com"), ("sc"), ("Basic Zm9v"), ("pull"),
        some ("https://auth.example.com/token"), some ("reg.example.com"),
        some ⟨JValue.str ("ot")⟩⟩
        ("https://reg.example.com/v2/y") (some [200]) none none none none =
      RunResult.err (PyError.v2Diagnostic ⟨401, []⟩ ⟨("d2"), none⟩)
        ⟨⟨[], [] ++
            [⟨("https://reg.example.com/v2/y"), effectiveMethod none none, none,
               buildRequestHeaders (Bearer.Get ⟨JValue.str ("ot")⟩)
                 (effectiveMethod none none) none none none⟩,
             ⟨("https://auth.example.com/token") ++ "?" ++
                 urlencodeScopeService ("sc") ("reg.example.com"), ("GET"),
                 none, refreshHeaders ("Basic Zm9v")⟩,
             ⟨("https://reg.example.com/v2/y"), effectiveMethod none none, none,
               buildRequestHeaders (Bearer.Get ⟨JValue.str ("nt")⟩)
                 (effectiveMethod none none) none none none⟩]⟩,
          ("reg.example.com"), ("sc"), ("Basic Zm9v"), ("pull"),
          some ("https://auth.example.com/token"), some ("reg.example.com"),
          some ⟨JValue.str ("nt")⟩⟩ :=
  (claim_C1_amended ("reg.example.com") ("sc") ("Basic Zm9v") ("pull")
      ("https://auth.example.com/token") ("reg.example.com")
      ("https://reg.example.com/v2/y") ("tb") [] [] [] (JValue.str ("ot"))
      (JValue.str ("nt")) ⟨("d1"), none⟩ ⟨("d2"), none⟩
      [(("token"), JValue.str ("nt"))] 401 [] [] none none none none [200]
      (by rfl)).2 (by decide)

/-- C7: `ParseNextLinkHeader` returns the URL of a `rel="next"` link
header, no value for a `rel="prev"`-only header or a missing header;
and when the first page's response has no next link, `PaginatedRequest`
yields exactly that one page and stops, having performed exactly one
request. -/
theorem claim_C7 :
    (ParseNextLinkHeader ⟨200, [(("link"), ("<https://x/y?page=2>; rel=\"next\""))]⟩ =
      some ("https://x/y?page=2")) ∧
    (ParseNextLinkHeader ⟨200, [(("link"), ("<https://x/y?page=0>; rel=\"prev\""))]⟩ =
      none) ∧
    (∀ st : Nat, ParseNextLinkHeader ⟨st, []⟩ = none) ∧
    (∀ (registry scopeStr basicAuth action url : String) (ro so : Option String)
       (b0 : Bearer) (resp : HttpResponse) (cA : Body)
       (rest : List (HttpResponse × Body)) (log0 : List CallRecord)
       (codes : List Nat) (m b ct : Option String),
       (url != "") = true →
       (resp.status != 401) = true →
       codes.contains resp.status = true →
       ParseNextLinkHeader resp = none →
       PaginatedRequest ⟨⟨(resp, cA) :: rest, log0⟩, registry, scopeStr, basicAuth,
           action, ro, so, some b0⟩ url (some codes) m b ct =
         ([(resp, cA)],
          RunResult.ok () ⟨⟨rest, log0 ++ [⟨url, effectiveMethod m b, b,
              buildRequestHeaders b0.Get (effectiveMethod m b) b ct none⟩]⟩,
            registry, scopeStr, basicAuth, action, ro, so, some b0⟩)) := by
  refine ⟨by decide, by decide, fun st => rfl, ?_⟩
  intro registry scopeStr basicAuth action url ro so b0 resp cA rest log0 codes
    m b ct hurl hst hcode hnp
  have hc2 : resp.status ∈ codes := by simpa using hcode
  simp [PaginatedRequest, PaginatedRequestAux, Request, oneAttempt,
    HttpTransport.request, finalCheck, pyTruthy, hurl, hst, hc2, hnp]

/-- C7 witness: a one-page pagination at concrete inputs. -/
theorem claim_C7_witness :
    PaginatedRequest ⟨⟨[(⟨200, []⟩, ⟨("page1"), none⟩)], []⟩, ("reg.example.com"),
        ("sc"), ("Basic Zm9v"), ("pull"), some ("https://auth.example.com/token"),
        some ("reg.example.com"), some ⟨JValue.str ("tok")⟩⟩
        ("https://reg.example.com/v2/_catalog") (some [200]) none none none =
      ([((⟨200, []⟩ : HttpResponse), (⟨("page1"), none⟩ : Body))],
       RunResult.ok () ⟨⟨[], [] ++ [⟨("https://reg.example.com/v2/_catalog"),
           effectiveMethod none none, none,
           buildRequestHeaders (Bearer.Get ⟨JValue.str ("tok")⟩)
             (effectiveMethod none none) none none none⟩]⟩,
         ("reg.example.com"), ("sc"), ("Basic Zm9v"), ("pull"),
         some ("https://auth.example.com/token"), some ("reg.example.com"),
         some ⟨JValue.str ("tok")⟩⟩) :=
  (claim_C7).2.2.2 ("reg.example.com") ("sc") ("Basic Zm9v") ("pull")
    ("https://reg.example.com/v2/_catalog")
    (some ("https://auth.example.com/token")) (some ("reg.example.com"))
    ⟨JValue.str ("tok")⟩ ⟨200, []⟩ ⟨("page1"), none⟩ [] [] [200] none none none
    (by decide) (by decide) (by decide) (by decide)

/-- C5 counterexample: the challenge `Bearer realm="R", service="S"` —
well formed, attributes separated by a comma and a single space — does
not set the service to `S`: the token scan does not strip whitespace,
so ` service="S"` is not recognized and the service stays at the
registry-host default (the run otherwise succeeds with realm `R`). -/
theorem claim_C5_counterexample :
    ((RunResult.state (_Ping ⟨⟨[(⟨401, [(("www-authenticate"),
        ("Bearer realm=\"R\", service=\"S\""))]⟩, ⟨(""), none⟩)], []⟩,
        ("reg.example.com"), ("sc"), ("Basic Zm9v"), ("pull"),
        none, none, none⟩)).service = some ("reg.example.com")) ∧
    (((RunResult.state (_Ping ⟨⟨[(⟨401, [(("www-authenticate"),
        ("Bearer realm=\"R\", service=\"S\""))]⟩, ⟨(""), none⟩)], []⟩,
        ("reg.example.com"), ("sc"), ("Basic Zm9v"), ("pull"),
        none, none, none⟩)).service == some ("S")) = false) ∧
    ((_Ping ⟨⟨[(⟨401, [(("www-authenticate"),
        ("Bearer realm=\"R\", service=\"S\""))]⟩, ⟨(""), none⟩)], []⟩,
        ("reg.example.com"), ("sc"), ("Basic Zm9v"), ("pull"),
        none, none, none⟩).isOk = true) ∧
    ((RunResult.state (_Ping ⟨⟨[(⟨401, [(("www-authenticate"),
        ("Bearer realm=\"R\", service=\"S\""))]⟩, ⟨(""), none⟩)], []⟩,
        ("reg.example.com"), ("sc"), ("Basic Zm9v"), ("pull"),
        none, none, none⟩)).realm = some ("R")) :=
  ⟨rfl, rfl, rfl, rfl⟩

/-- C5 (amended): for challenges of the exact form
`Bearer realm="R",service="S"` — attributes separated by a bare comma
with no whitespace, `R` and `S` free of quotes and commas, `R`
nonempty — Ping sets realm to `R` and service to `S` with the quotes
stripped, in either attribute order (`realmTok r` and `serviceTok s`
spell the two attribute tokens); tokens preceded by whitespace are not
recognized (see the counterexample); and whenever no comma token of
the challenge starts with `service=`, the resolved service equals the
registry host used to build the ping URL. -/
theorem claim_C5_amended (registry scopeStr basicAuth action : String)
    (r s : List Char)
    (hr1 : ('"' : Char) ∉ r) (hr2 : (',' : Char) ∉ r) (hr3 : r ≠ [])
    (hs1 : ('"' : Char) ∉ s) (hs2 : (',' : Char) ∉ s) :
    (_Ping ⟨⟨[(⟨401, [(("www-authenticate"),
        bearerChallenge (realmTok r) (serviceTok s))]⟩, ⟨(""), none⟩)], []⟩,
        registry, scopeStr, basicAuth, action, none, none, none⟩ =
      RunResult.ok () ⟨⟨[], [] ++ [⟨Scheme registry ++ "://" ++ registry ++ "/v2/",
          ("GET"), none, pingHeaders⟩]⟩,
        registry, scopeStr, basicAuth, action,
        some (String.mk r), some (String.mk s), none⟩) ∧
    (_Ping ⟨⟨[(⟨401, [(("www-authenticate"),
        bearerChallenge (serviceTok s) (realmTok r))]⟩, ⟨(""), none⟩)], []⟩,
        registry, scopeStr, basicAuth, action, none, none, none⟩ =
      RunResult.ok () ⟨⟨[], [] ++ [⟨Scheme registry ++ "://" ++ registry ++ "/v2/",
          ("GET"), none, pingHeaders⟩]⟩,
        registry, scopeStr, basicAuth, action,
        some (String.mk r), some (String.mk s), none⟩) ∧
    (∀ (ch : String) (c0 : Body) (rest : List (HttpResponse × Body))
       (log0 : List CallRecord),
       pyStartsWith ch _CHALLENGE = true →
       (∀ t ∈ pySplitChar (pyDrop ch (_CHALLENGE.length)) (','),
          pyStartsWith t _SERVICE_PFX = false) →
       (RunResult.state (_Ping ⟨⟨(⟨401, [(("www-authenticate"), ch)]⟩, c0) :: rest,
           log0⟩, registry, scopeStr, basicAuth, action, none, none, none⟩)).service =
         some registry) := by
  have hrv : (String.mk r != "") = true := by
    rw [bne_iff_ne]
    intro h
    exact hr3 (by simpa using congrArg String.data h)
  have hcr : (',' : Char) ∉ realmTok r := by
    intro hm
    rcases List.mem_append.mp hm with h | h
    · exact absurd h (by decide)
    · rcases List.mem_cons.mp h with h | h
      · exact absurd h (by decide)
      · rcases List.mem_append.mp h with h | h
        · exact hr2 h
        · exact absurd h (by decide)
  have hcs : (',' : Char) ∉ serviceTok s := by
    intro hm
    rcases List.mem_append.mp hm with h | h
    · exact absurd h (by decide)
    · rcases List.mem_cons.mp h with h | h
      · exact absurd h (by decide)
      · rcases List.mem_append.mp h with h | h
        · exact hs2 h
        · exact absurd h (by decide)
  have e1 : pyStartsWith (String.mk (realmTok r)) _REALM_PFX = true := by rfl
  have e2 : pyStartsWith (String.mk (serviceTok s)) _REALM_PFX = false := by rfl
  have e3 : pyStartsWith (String.mk (serviceTok s)) _SERVICE_PFX = true := by rfl
  have e4 : pyStripChar (pyDrop (String.mk (realmTok r)) (_REALM_PFX.length)) ('"') =
      String.mk r := by
    have ed : pyDrop (String.mk (realmTok r)) (_REALM_PFX.length) =
        String.mk (('"' : Char) :: (r ++ [('"' : Char)])) := by rfl
    rw [ed]
    exact strip_wrap r hr1
  have e5 : pyStripChar (pyDrop (String.mk (serviceTok s)) (_SERVICE_PFX.length))
      ('"') = String.mk s := by
    have ed : pyDrop (String.mk (serviceTok s)) (_SERVICE_PFX.length) =
        String.mk (('"' : Char) :: (s ++ [('"' : Char)])) := by rfl
    rw [ed]
    exact strip_wrap s hs1
  refine ⟨?_, ?_, ?_⟩
  · have hfull : scanChallengeTokens (pySplitChar (pyDrop
        (bearerChallenge (realmTok r) (serviceTok s)) (_CHALLENGE.length)) (','))
        none (some registry) = (some (String.mk r), some (String.mk s)) := by
      rw [show pyDrop (bearerChallenge (realmTok r) (serviceTok s))
            (_CHALLENGE.length) =
          String.mk (realmTok r ++ ((',' : Char) :: serviceTok s)) from rfl]
      rw [pySplitChar_pair _ _ hcr hcs]
      simp [scanChallengeTokens, e1, e2, e3, e4, e5]
    exact ping_realm_service registry scopeStr basicAuth action _ ⟨(""), none⟩ [] []
      (String.mk r) (some (String.mk s)) (by rfl) hfull hrv
  · have hfull : scanChallengeTokens (pySplitChar (pyDrop
        (bearerChallenge (serviceTok s) (realmTok r)) (_CHALLENGE.length)) (','))
        none (some registry) = (some (String.mk r), some (String.mk s)) := by
      rw [show pyDrop (bearerChallenge (serviceTok s) (realmTok r))
            (_CHALLENGE.length) =
          String.mk (serviceTok s ++ ((',' : Char) :: realmTok r)) from rfl]
      rw [pySplitChar_pair _ _ hcs hcr]
      simp [scanChallengeTokens, e1, e2, e3, e4, e5]
    exact ping_realm_service registry scopeStr basicAuth action _ ⟨(""), none⟩ [] []
      (String.mk r) (some (String.mk s)) (by rfl) hfull hrv
  · intro ch c0 rest log0 hch hns
    rw [ping_state_service registry scopeStr basicAuth action ch c0 rest log0 hch]
    exact scan_no_service _ _ _ hns

/-- C5 witness: `Bearer realm="R1",service="S1"` (no whitespace)
resolves realm `R1` and service `S1`, and a realm-only challenge
leaves the service at the registry host. -/
theorem claim_C5_witness :
    (_Ping ⟨⟨[(⟨401, [(("www-authenticate"),
        bearerChallenge (realmTok (['R','1'] : List Char))
          (serviceTok (['S','1'] : List Char)))]⟩, ⟨(""), none⟩)], []⟩,
        ("reg.example.com"), ("sc"), ("Basic Zm9v"), ("pull"),
        none, none, none⟩ =
      RunResult.ok () ⟨⟨[], [] ++ [⟨Scheme ("reg.example.com") ++ "://" ++
          ("reg.example.com") ++ "/v2/", ("GET"), none, pingHeaders⟩]⟩,
        ("reg.example.com"), ("sc"), ("Basic Zm9v"), ("pull"),
        some (String.mk (['R','1'] : List Char)),
        some (String.mk (['S','1'] : List Char)), none⟩) ∧
    ((RunResult.state (_Ping ⟨⟨[(⟨401, [(("www-authenticate"),
        ("Bearer realm=\"R1\""))]⟩, ⟨(""), none⟩)], []⟩,
        ("reg.example.com"), ("sc"), ("Basic Zm9v"), ("pull"),
        none, none, none⟩)).service = some ("reg.example.com")) :=
  ⟨(claim_C5_amended ("reg.example.com") ("sc") ("Basic Zm9v") ("pull")
      (['R','1'] : List Char) (['S','1'] : List Char)
      (by decide) (by decide) (by decide) (by decide) (by decide)).1,
   (claim_C5_amended ("reg.example.com") ("sc") ("Basic Zm9v") ("pull")
      (['R','1'] : List Char) (['S','1'] : List Char)
      (by decide) (by decide) (by decide) (by decide) (by decide)).2.2
     ("Bearer realm=\"R1\"") ⟨(""), none⟩ [] [] (by decide) (by decide)⟩

end DockerHttp
